import Mathlib

/-!
Shallow embedding of the simulation core of `src/main.cpp`, a fixed-tick
top-down arcade shooter.  Floating-point positions and sizes are modelled
as exact rationals (every arithmetic step the claims exercise is exact in
binary floating point as well), C++ `int` counters as `Int`, array pools
as fixed-length `List Entity`.  Calls to `random(a, b)` are modelled by
explicit oracle arguments, and `millis()` by an explicit `now : Nat`
argument.  The radial particle velocities of `spawnExplosion` involve
`cos`/`sin` of multiples of pi/4, which are irrational; the velocity table
is therefore a parameter `pvel : Nat → Vec2` of the model (no claim
depends on its values).
-/

namespace Shooter

/-- Constant `SCREEN_WIDTH` from main.cpp. -/
def SCREEN_WIDTH : ℚ := 480

/-- Constant `SCREEN_HEIGHT` from main.cpp. -/
def SCREEN_HEIGHT : ℚ := 320

/-- Capacity `MAX_ENEMIES` of the enemy pool. -/
def MAX_ENEMIES : Nat := 20

/-- Capacity `MAX_PLAYER_BULLETS` of the player-bullet pool. -/
def MAX_PLAYER_BULLETS : Nat := 30

/-- Capacity `MAX_ENEMY_BULLETS` of the enemy-bullet pool. -/
def MAX_ENEMY_BULLETS : Nat := 40

/-- Capacity `MAX_POWERUPS` of the powerup pool. -/
def MAX_POWERUPS : Nat := 5

/-- Capacity `MAX_EXPLOSIONS` of the explosion pool. -/
def MAX_EXPLOSIONS : Nat := 10

/-- Capacity `MAX_PARTICLES` of the particle pool. -/
def MAX_PARTICLES : Nat := 50

/- RGB565 colour constants used by the sketch; opaque to the game logic. -/

def TFT_RED : Nat := 0xF800
def TFT_YELLOW : Nat := 0xFFE0
def TFT_PURPLE : Nat := 0x780F
def TFT_WHITE : Nat := 0xFFFF
def TFT_ORANGE : Nat := 0xFDA0
def TFT_CYAN : Nat := 0x07FF
def TFT_GREEN : Nat := 0x07E0
def TFT_MAGENTA : Nat := 0xF81F

/-- The `struct Vec2` of main.cpp: 2D vector of floats, modelled over ℚ. -/
structure Vec2 where
  x : ℚ
  y : ℚ
deriving DecidableEq, Repr

/-- The `struct Rect` of main.cpp: axis-aligned rectangle (top-left corner plus extent). -/
structure Rect where
  x : ℚ
  y : ℚ
  w : ℚ
  h : ℚ
deriving DecidableEq, Repr

/-- The member `Rect::intersects`:
`x < r.x + r.w && x + w > r.x && y < r.y + r.h && y + h > r.y`. -/
def Rect.intersects (a r : Rect) : Bool :=
  decide (a.x < r.x + r.w) && decide (a.x + a.w > r.x) &&
  decide (a.y < r.y + r.h) && decide (a.y + a.h > r.y)

/-- The `enum EntityType` from main.cpp. -/
inductive EntityType where
  | PLAYER
  | ENEMY_BASIC
  | ENEMY_FAST
  | ENEMY_TANK
  | BULLET_PLAYER
  | BULLET_ENEMY
  | POWERUP_WEAPON
  | POWERUP_HEALTH
  | EXPLOSION
  | PARTICLE
deriving DecidableEq, Repr

export EntityType (PLAYER ENEMY_BASIC ENEMY_FAST ENEMY_TANK BULLET_PLAYER
  BULLET_ENEMY POWERUP_WEAPON POWERUP_HEALTH EXPLOSION PARTICLE)

/-- The `struct Entity` from main.cpp (`lastAnimTime` stores a `millis()` value). -/
structure Entity where
  active : Bool
  type : EntityType
  pos : Vec2
  vel : Vec2
  width : ℚ
  height : ℚ
  health : ℤ
  color : Nat
  animFrame : ℤ
  lastAnimTime : Nat
deriving DecidableEq, Repr

/-- Default entity value used only as the `getD` fallback (never read by the
game logic; inactive slots are skipped). -/
def dEnt : Entity :=
  ⟨false, PLAYER, ⟨0, 0⟩, ⟨0, 0⟩, 0, 0, 0, 0, 0, 0⟩

/-- The member `Entity::init(t, p, v, w, h, hp, col)` at time `now = millis()`:
overwrites every field of the slot with the freshly activated record. -/
def Entity.init (t : EntityType) (p v : Vec2) (w h : ℚ) (hp : ℤ)
    (col : Nat) (now : Nat) : Entity :=
  ⟨true, t, p, v, w, h, hp, col, 0, now⟩

/-- The member `Entity::getRect`: AABB centred on `pos`. -/
def Entity.getRect (e : Entity) : Rect :=
  ⟨e.pos.x - e.width / 2, e.pos.y - e.height / 2, e.width, e.height⟩

/-- The member `Entity::deactivate`. -/
def Entity.deactivate (e : Entity) : Entity :=
  { e with active := false }

/-- Enemy-type selection in `Game::update` (the per-2-second spawn block):
`type = ENEMY_BASIC; if (enemyType > 70) type = ENEMY_FAST;
else if (enemyType > 90) type = ENEMY_TANK;` where `enemyType = random(0,100)`. -/
def selectEnemyType (roll : Nat) : EntityType :=
  if roll > 70 then ENEMY_FAST
  else if roll > 90 then ENEMY_TANK
  else ENEMY_BASIC

/-- Enemy speed chosen alongside the type in the same branch of `Game::update`
(`speed = 1.5`, overwritten with `3.0` / `0.8` in the taken branch). -/
def selectEnemySpeed (roll : Nat) : ℚ :=
  if roll > 70 then 3
  else if roll > 90 then 4/5
  else 3/2

/-- One slot of the per-player-bullet body of `Game::updateBullets`:
skip inactive, advance by velocity, deactivate when `pos.y < -10`. -/
def updatePlayerBulletStep (b : Entity) : Entity :=
  if !b.active then b
  else
    let b1 : Entity := { b with pos := ⟨b.pos.x + b.vel.x, b.pos.y + b.vel.y⟩ }
    if b1.pos.y < -10 then b1.deactivate else b1

/-- Player-bullet half of `Game::updateBullets` over the whole pool
(slots are independent). -/
def updatePlayerBullets (pool : List Entity) : List Entity :=
  pool.map updatePlayerBulletStep

/-- The slot-allocation scan shared by every `Game::spawn*` function:
`for (i...) if (!pool[i].active) { pool[i].init(...); break; }` — the first
inactive slot (in index order) is overwritten with the new entity; if every
slot is active the pool is left unchanged. -/
def spawnInto (pool : List Entity) (e : Entity) : List Entity :=
  match pool with
  | [] => []
  | h :: t => if h.active then h :: spawnInto t e else e :: t

/-- Number of active entities in a pool. -/
def countActive (pool : List Entity) : Nat :=
  pool.countP (·.active)

/-- Number of free (inactive) slots in a pool. -/
def freeSlots (pool : List Entity) : Nat :=
  pool.countP (fun e => !e.active)

/-- The `enum GameState` inside `class Game`. -/
inductive GameState where
  | TITLE
  | PLAYING
  | GAME_OVER
deriving DecidableEq, Repr

export GameState (TITLE PLAYING GAME_OVER)

/-- The mutable state of `class Game`: the player singleton, the six entity
pools (fixed-size arrays, modelled as lists whose length is the capacity),
and the run-level counters. -/
structure Game where
  player : Entity
  enemies : List Entity
  playerBullets : List Entity
  enemyBullets : List Entity
  powerups : List Entity
  explosions : List Entity
  particles : List Entity
  score : ℤ
  lives : ℤ
  wave : ℤ
  scrollY : ℚ
  lastEnemySpawn : Nat
  lastPlayerShot : Nat
  playerWeaponLevel : ℤ
  state : GameState
deriving DecidableEq, Repr

/-- The six pools have exactly their source-array sizes (the C++ pools are
fixed-size arrays, so every program state satisfies this). -/
def Game.wellSized (g : Game) : Prop :=
  g.enemies.length = MAX_ENEMIES ∧
  g.playerBullets.length = MAX_PLAYER_BULLETS ∧
  g.enemyBullets.length = MAX_ENEMY_BULLETS ∧
  g.powerups.length = MAX_POWERUPS ∧
  g.explosions.length = MAX_EXPLOSIONS ∧
  g.particles.length = MAX_PARTICLES

instance (g : Game) : Decidable g.wellSized := by
  unfold Game.wellSized; infer_instance

/-- The member `Game::spawnEnemy`: the `switch (type)` picks hit-points, colour and box
size (basic 10 HP 20×20 red, fast 5 HP 16×16 yellow, tank 30 HP 28×28
purple), then the first free slot is initialized. -/
def Game.spawnEnemy (g : Game) (type : EntityType) (pos vel : Vec2)
    (now : Nat) : Game :=
  let hp : ℤ := match type with
    | ENEMY_FAST => 5
    | ENEMY_TANK => 30
    | _ => 10
  let col : Nat := match type with
    | ENEMY_FAST => TFT_YELLOW
    | ENEMY_TANK => TFT_PURPLE
    | _ => TFT_RED
  let wh : ℚ := match type with
    | ENEMY_FAST => 16
    | ENEMY_TANK => 28
    | _ => 20
  let pool := spawnInto g.enemies (Entity.init type pos vel wh wh hp col now)
  { g with enemies := pool }

/-- The member `Game::spawnPlayerBullet`. -/
def Game.spawnPlayerBullet (g : Game) (pos vel : Vec2) (now : Nat) : Game :=
  let pool := spawnInto g.playerBullets (Entity.init BULLET_PLAYER pos vel 4 8 1 TFT_WHITE now)
  { g with playerBullets := pool }

/-- The member `Game::spawnEnemyBullet`. -/
def Game.spawnEnemyBullet (g : Game) (pos vel : Vec2) (now : Nat) : Game :=
  let pool := spawnInto g.enemyBullets (Entity.init BULLET_ENEMY pos vel 4 8 1 TFT_ORANGE now)
  { g with enemyBullets := pool }

/-- The member `Game::spawnParticle`. -/
def Game.spawnParticle (g : Game) (pos vel : Vec2) (now : Nat) : Game :=
  let pool := spawnInto g.particles (Entity.init PARTICLE pos vel 2 2 10 TFT_YELLOW now)
  { g with particles := pool }

/-- The member `Game::spawnPowerup`. -/
def Game.spawnPowerup (g : Game) (pos : Vec2) (type : EntityType)
    (now : Nat) : Game :=
  let col : Nat := if type = POWERUP_WEAPON then TFT_GREEN else TFT_MAGENTA
  let pool := spawnInto g.powerups (Entity.init type pos ⟨0, 1⟩ 16 16 1 col now)
  { g with powerups := pool }

/-- The particle loop of `Game::spawnExplosion`:
`for (j = 0; j < n; j++) spawnParticle(pos, vel_j)` where `vel_j` is the
radial velocity table `pvel` (cos/sin evaluated in floating point in the
source).  `spawnParticles g pos pvel now n` performs the calls for
`j = 0, …, n−1` in ascending order. -/
def Game.spawnParticles (g : Game) (pos : Vec2) (pvel : Nat → Vec2)
    (now : Nat) : Nat → Game
  | 0 => g
  | Nat.succ j => (g.spawnParticles pos pvel now j).spawnParticle pos (pvel j) now

/-- The member `Game::spawnExplosion`: claim a free explosion slot (6-frame animation,
sized `size`), then unconditionally spawn 8 radial particles. -/
def Game.spawnExplosion (g : Game) (pos : Vec2) (size : ℚ) (now : Nat)
    (pvel : Nat → Vec2) : Game :=
  let pool := spawnInto g.explosions (Entity.init EXPLOSION pos ⟨0, 0⟩ size size 6 TFT_ORANGE now)
  let g1 : Game := { g with explosions := pool }
  g1.spawnParticles pos pvel now 8

/-- The hit test of the bullets-vs-enemies phase for one enemy slot:
the slot is active and the bullet's rect intersects its rect. -/
def isHit (b e : Entity) : Bool :=
  e.active && b.getRect.intersects e.getRect

/-- Index-order scan of the enemy pool for the first active enemy the bullet
intersects (the inner `for (j...)` of `Game::checkCollisions` phase 1). -/
def findHit (es : List Entity) (b : Entity) : Option Nat :=
  match es with
  | [] => none
  | e :: t => if isHit b e then some 0 else (findHit t b).map (· + 1)

/-- Effects applied to enemy slot `j` when a player bullet hits it
(`Game::checkCollisions` phase 1 body): health −= 10; if now ≤ 0 then
score += 100, an explosion is spawned at the enemy, with probability
`dropRoll < 20` a powerup (`typeRoll = 0` → weapon, else health) is dropped
there, and the enemy is deactivated. -/
def Game.applyHit (g : Game) (j : Nat) (dropRoll typeRoll : Nat) (now : Nat)
    (pvel : Nat → Vec2) : Game :=
  let e := g.enemies.getD j dEnt
  let e1 : Entity := { e with health := e.health - 10 }
  if e1.health ≤ 0 then
    let g1 : Game := { g with enemies := g.enemies.set j e1, score := g.score + 100 }
    let g2 := g1.spawnExplosion e1.pos e1.width now pvel
    let g3 := if dropRoll < 20 then
        g2.spawnPowerup e1.pos (if typeRoll = 0 then POWERUP_WEAPON else POWERUP_HEALTH) now
      else g2
    { g3 with enemies := g3.enemies.set j e1.deactivate }
  else
    { g with enemies := g.enemies.set j e1 }

/-- One player bullet's turn in `Game::checkCollisions` phase 1: an inactive
bullet is skipped; otherwise the enemy pool is scanned in index order and the
bullet resolves against the first intersecting active enemy only (it
deactivates and its scan stops). -/
def Game.resolveBullet (g : Game) (b : Entity) (dropRoll typeRoll : Nat)
    (now : Nat) (pvel : Nat → Vec2) : Entity × Game :=
  if !b.active then (b, g)
  else
    match findHit g.enemies b with
    | none => (b, g)
    | some j => (b.deactivate, g.applyHit j dropRoll typeRoll now pvel)

/-- The outer `for (i...)` of phase 1 over the player-bullet pool, bullet
index `k` numbering the slots (each possible kill consumes the oracle pair
`rolls k` = (drop roll in [0,100), type roll in [0,2))). -/
def Game.runBullets (rolls : Nat → Nat × Nat) (now : Nat)
    (pvel : Nat → Vec2) : Game → List Entity → Nat → List Entity × Game
  | g, [], _ => ([], g)
  | g, b :: t, k =>
    let r := g.resolveBullet b (rolls k).1 (rolls k).2 now pvel
    let rest := Game.runBullets rolls now pvel r.2 t (k + 1)
    (r.1 :: rest.1, rest.2)

/-- Phase 1 of `Game::checkCollisions`: player bullets vs enemies. -/
def Game.bulletsVsEnemies (g : Game) (rolls : Nat → Nat × Nat) (now : Nat)
    (pvel : Nat → Vec2) : Game :=
  let r := Game.runBullets rolls now pvel g g.playerBullets 0
  { r.2 with playerBullets := r.1 }

/-- Loop body of phase 2 over the enemy-bullet pool: every active enemy
bullet intersecting the player deactivates, costs one life and spawns an
explosion at the player. -/
def Game.runEnemyBullets (now : Nat) (pvel : Nat → Vec2) :
    Game → List Entity → List Entity × Game
  | g, [] => ([], g)
  | g, b :: t =>
    if b.active && b.getRect.intersects g.player.getRect then
      let g1 := Game.spawnExplosion { g with lives := g.lives - 1 }
                  g.player.pos g.player.width now pvel
      let rest := Game.runEnemyBullets now pvel g1 t
      (b.deactivate :: rest.1, rest.2)
    else
      let rest := Game.runEnemyBullets now pvel g t
      (b :: rest.1, rest.2)

/-- Phase 2 of `Game::checkCollisions`: enemy bullets vs player. -/
def Game.enemyBulletsVsPlayer (g : Game) (now : Nat) (pvel : Nat → Vec2) : Game :=
  let r := Game.runEnemyBullets now pvel g g.enemyBullets
  { r.2 with enemyBullets := r.1 }

/-- Loop body of phase 3 over the enemy pool: every active enemy touching the
player costs one life, spawns explosions at the enemy and at the player, and
is destroyed by the contact. -/
def Game.runEnemiesVsPlayer (now : Nat) (pvel : Nat → Vec2) :
    Game → List Entity → List Entity × Game
  | g, [] => ([], g)
  | g, e :: t =>
    if e.active && e.getRect.intersects g.player.getRect then
      let g1 : Game := { g with lives := g.lives - 1 }
      let g2 := g1.spawnExplosion e.pos e.width now pvel
      let g3 := g2.spawnExplosion g.player.pos g.player.width now pvel
      let rest := Game.runEnemiesVsPlayer now pvel g3 t
      (e.deactivate :: rest.1, rest.2)
    else
      let rest := Game.runEnemiesVsPlayer now pvel g t
      (e :: rest.1, rest.2)

/-- Phase 3 of `Game::checkCollisions`: enemies vs player. -/
def Game.enemiesVsPlayer (g : Game) (now : Nat) (pvel : Nat → Vec2) : Game :=
  let r := Game.runEnemiesVsPlayer now pvel g g.enemies
  { r.2 with enemies := r.1 }

/-- Loop body of phase 4 over the powerup pool: a touched weapon powerup
raises the weapon level clamped at 3, a touched health powerup raises lives
clamped at 5; the powerup is consumed. -/
def Game.runPowerups : Game → List Entity → List Entity × Game
  | g, [] => ([], g)
  | g, p :: t =>
    if p.active && p.getRect.intersects g.player.getRect then
      let g1 : Game :=
        if p.type = POWERUP_WEAPON then
          { g with playerWeaponLevel := min (g.playerWeaponLevel + 1) 3 }
        else if p.type = POWERUP_HEALTH then
          { g with lives := min (g.lives + 1) 5 }
        else g
      let rest := Game.runPowerups g1 t
      (p.deactivate :: rest.1, rest.2)
    else
      let rest := Game.runPowerups g t
      (p :: rest.1, rest.2)

/-- Phase 4 of `Game::checkCollisions`: powerups vs player. -/
def Game.powerupsVsPlayer (g : Game) : Game :=
  let r := Game.runPowerups g g.powerups
  { r.2 with powerups := r.1 }

/-- The member `Game::checkCollisions`: the four phases in their fixed order. -/
def Game.checkCollisions (g : Game) (rolls : Nat → Nat × Nat) (now : Nat)
    (pvel : Nat → Vec2) : Game :=
  (((g.bulletsVsEnemies rolls now pvel).enemyBulletsVsPlayer now pvel).enemiesVsPlayer
      now pvel).powerupsVsPlayer

/-- The member `Game::init` at time `now = millis()`: state TITLE, counters reset
(score 0, lives 3, wave 1, weapon level 1), player re-initialized at the
bottom centre, and every slot of every pool deactivated. -/
def Game.init (g : Game) (now : Nat) : Game :=
  { state := TITLE
    score := 0
    lives := 3
    wave := 1
    scrollY := 0
    playerWeaponLevel := 1
    lastEnemySpawn := 0
    lastPlayerShot := 0
    player := Entity.init PLAYER ⟨SCREEN_WIDTH / 2, SCREEN_HEIGHT - 60⟩
                ⟨0, 0⟩ 24 24 100 TFT_CYAN now
    enemies := g.enemies.map Entity.deactivate
    playerBullets := g.playerBullets.map Entity.deactivate
    enemyBullets := g.enemyBullets.map Entity.deactivate
    powerups := g.powerups.map Entity.deactivate
    explosions := g.explosions.map Entity.deactivate
    particles := g.particles.map Entity.deactivate }

/-- The member `Game::startGame`: full reset, then state PLAYING. -/
def Game.startGame (g : Game) (now : Nat) : Game :=
  { g.init now with state := PLAYING }

/-- The state-machine dispatch at the top of `Game::update` (the TITLE and
GAME_OVER branches return before any pool is updated): `some g'` is the tick's
final state when the dispatch returns early, `none` means the state is
PLAYING and the tick body (movement, spawning, collisions) runs instead. -/
def Game.updateDispatch (g : Game) (touching : Bool) (now : Nat) : Option Game :=
  if g.state = TITLE then
    some (if touching then g.startGame now else g)
  else if g.state = GAME_OVER then
    some (if touching then g.startGame now else g)
  else none

/-- An arbitrary active entity, used to build concrete full pools. -/
def aEnt : Entity := { dEnt with active := true }

/-- Zero radial-velocity table used to instantiate `pvel` in concrete runs. -/
def pvelZero : Nat → Vec2 := fun _ => ⟨0, 0⟩

/-- Concrete oracle for the kill rolls: no powerup ever drops. -/
def rollsNone : Nat → Nat × Nat := fun _ => (99, 0)

/-- The player entity as `Game::init` makes it, at its literal coordinates. -/
def playerStart : Entity :=
  Entity.init PLAYER ⟨240, 260⟩ ⟨0, 0⟩ 24 24 100 TFT_CYAN 0

/-- A fresh well-sized game: all pools at capacity, every slot inactive. -/
def gEmpty : Game :=
  { player := playerStart
    enemies := List.replicate MAX_ENEMIES dEnt
    playerBullets := List.replicate MAX_PLAYER_BULLETS dEnt
    enemyBullets := List.replicate MAX_ENEMY_BULLETS dEnt
    powerups := List.replicate MAX_POWERUPS dEnt
    explosions := List.replicate MAX_EXPLOSIONS dEnt
    particles := List.replicate MAX_PARTICLES dEnt
    score := 0
    lives := 3
    wave := 1
    scrollY := 0
    lastEnemySpawn := 0
    lastPlayerShot := 0
    playerWeaponLevel := 1
    state := PLAYING }

/-- A well-sized game whose every pool is completely full. -/
def gAllFull : Game :=
  { gEmpty with
    enemies := List.replicate MAX_ENEMIES aEnt
    playerBullets := List.replicate MAX_PLAYER_BULLETS aEnt
    enemyBullets := List.replicate MAX_ENEMY_BULLETS aEnt
    powerups := List.replicate MAX_POWERUPS aEnt
    explosions := List.replicate MAX_EXPLOSIONS aEnt
    particles := List.replicate MAX_PARTICLES aEnt }

/-- A well-sized game whose explosion pool is full while every particle slot
is free. -/
def gExpFull : Game :=
  { gEmpty with
    explosions := List.replicate MAX_EXPLOSIONS
      (Entity.init EXPLOSION ⟨50, 50⟩ ⟨0, 0⟩ 20 20 6 TFT_ORANGE 0) }

/-- A basic enemy at (100, 100) with full health, for concrete collision runs. -/
def enemyA : Entity := Entity.init ENEMY_BASIC ⟨100, 100⟩ ⟨0, 3/2⟩ 20 20 10 TFT_RED 0

/-- A second basic enemy overlapping the first. -/
def enemyB : Entity := Entity.init ENEMY_BASIC ⟨110, 100⟩ ⟨0, 3/2⟩ 20 20 10 TFT_RED 0

/-- A player bullet overlapping both enemies above. -/
def bulletHit : Entity := Entity.init BULLET_PLAYER ⟨105, 100⟩ ⟨0, -8⟩ 4 8 1 TFT_WHITE 0

/-- A well-sized game whose enemy slots 0 and 1 hold the two overlapping
enemies. -/
def gTwoEnemies : Game :=
  { gEmpty with enemies := enemyA :: enemyB :: List.replicate 18 dEnt }

/-- A well-sized game whose enemy slot 0 holds a single full-health enemy. -/
def gOneEnemy : Game :=
  { gEmpty with enemies := enemyA :: List.replicate 19 dEnt }

/-- An enemy bullet sitting right on the player's start position. -/
def ebHit : Entity := Entity.init BULLET_ENEMY ⟨240, 260⟩ ⟨0, 3⟩ 4 8 1 TFT_ORANGE 0

/-- A well-sized game on its last life with two enemy bullets overlapping the
player in the same tick. -/
def gC3 : Game :=
  { gEmpty with
    lives := 1
    enemyBullets := ebHit :: ebHit :: List.replicate 38 dEnt }

/-- The spec's claimed intersection predicate, modelled from the spec's words
for comparison with `Rect.intersects`: the x-intervals and y-intervals both
overlap, with boxes that merely touch at an edge counted as overlapping
(closed-interval overlap). -/
def specTouchOverlap (a r : Rect) : Bool :=
  decide (a.x ≤ r.x + r.w) && decide (r.x ≤ a.x + a.w) &&
  decide (a.y ≤ r.y + r.h) && decide (r.y ≤ a.y + a.h)

/-- Strict overlap of the intervals [l1, u1] and [l2, u2]: each interval's
lower end lies strictly below the other's upper end, so the shared part is a
nondegenerate open interval (merely touching endpoints do not count). -/
def strictIntervalOverlap (l1 u1 l2 u2 : ℚ) : Prop :=
  l1 < u2 ∧ l2 < u1

/-- The bullet of the spec's boundary-culling scenario: vertical position 5,
velocity (0, −8). -/
def bulletAt5 : Entity :=
  Entity.init BULLET_PLAYER ⟨240, 5⟩ ⟨0, -8⟩ 4 8 1 TFT_WHITE 0

/-- A game-over state littered with live entities and stale counters. -/
def gOver : Game :=
  { gAllFull with
    state := GAME_OVER
    score := 5700
    lives := 0
    playerWeaponLevel := 3 }

end Shooter

namespace Shooter

/- Pool lemmas shared by several claims. -/

/-- The slot-allocation scan never changes the pool's length. -/
theorem spawnInto_length (pool : List Entity) (e : Entity) :
    (spawnInto pool e).length = pool.length := by
  induction pool with
  | nil => rfl
  | cons h t ih => by_cases hh : h.active <;> simp [spawnInto, hh, ih]

/-- A pool never holds more active entities than slots. -/
theorem countActive_le_length (pool : List Entity) :
    countActive pool ≤ pool.length :=
  List.countP_le_length _

/-- A fully active pool is left unchanged by the allocation scan. -/
theorem spawnInto_full (pool : List Entity) (e : Entity)
    (h : ∀ x ∈ pool, x.active = true) : spawnInto pool e = pool := by
  induction pool with
  | nil => rfl
  | cons hd t ih =>
    have hhd : hd.active = true := h hd (List.mem_cons_self hd t)
    simp [spawnInto, hhd, ih fun x hx => h x (List.mem_cons_of_mem hd hx)]

/-- Lemma: `spawnParticles` leaves every field but the particle pool unchanged and
preserves the particle pool's length. -/
theorem spawnParticles_fields (g : Game) (pos : Vec2) (pvel : Nat → Vec2)
    (now : Nat) (n : Nat) :
    (g.spawnParticles pos pvel now n).enemies = g.enemies ∧
    (g.spawnParticles pos pvel now n).playerBullets = g.playerBullets ∧
    (g.spawnParticles pos pvel now n).enemyBullets = g.enemyBullets ∧
    (g.spawnParticles pos pvel now n).powerups = g.powerups ∧
    (g.spawnParticles pos pvel now n).explosions = g.explosions ∧
    (g.spawnParticles pos pvel now n).particles.length = g.particles.length ∧
    (g.spawnParticles pos pvel now n).score = g.score ∧
    (g.spawnParticles pos pvel now n).lives = g.lives ∧
    (g.spawnParticles pos pvel now n).player = g.player ∧
    (g.spawnParticles pos pvel now n).playerWeaponLevel = g.playerWeaponLevel ∧
    (g.spawnParticles pos pvel now n).state = g.state := by
  induction n with
  | zero => simp [Game.spawnParticles]
  | succ k ih =>
    obtain ⟨h1, h2, h3, h4, h5, h6, h7, h8, h9, h10, h11⟩ := ih
    simp only [Game.spawnParticles, Game.spawnParticle]
    exact ⟨h1, h2, h3, h4, h5, by rw [spawnInto_length]; exact h6,
      h7, h8, h9, h10, h11⟩

/-- C9: in every well-sized state the number of active entities in each pool
is at most that pool's capacity, and every spawn operation keeps the state
well-sized (each allocation writes only into the first free slot of the
fixed-size array), so no spawn can push a pool past its capacity. -/
theorem C9_pool_capacity (g : Game) (hw : g.wellSized) (type ptype : EntityType)
    (pos vel : Vec2) (size : ℚ) (now : Nat) (pvel : Nat → Vec2) :
    (countActive g.enemies ≤ MAX_ENEMIES ∧
     countActive g.playerBullets ≤ MAX_PLAYER_BULLETS ∧
     countActive g.enemyBullets ≤ MAX_ENEMY_BULLETS ∧
     countActive g.powerups ≤ MAX_POWERUPS ∧
     countActive g.explosions ≤ MAX_EXPLOSIONS ∧
     countActive g.particles ≤ MAX_PARTICLES) ∧
    (g.spawnEnemy type pos vel now).wellSized ∧
    (g.spawnPlayerBullet pos vel now).wellSized ∧
    (g.spawnEnemyBullet pos vel now).wellSized ∧
    (g.spawnPowerup pos ptype now).wellSized ∧
    (g.spawnParticle pos vel now).wellSized ∧
    (g.spawnExplosion pos size now pvel).wellSized := by
  obtain ⟨h1, h2, h3, h4, h5, h6⟩ := hw
  refine ⟨⟨?_, ?_, ?_, ?_, ?_, ?_⟩, ?_, ?_, ?_, ?_, ?_, ?_⟩
  · exact h1 ▸ countActive_le_length g.enemies
  · exact h2 ▸ countActive_le_length g.playerBullets
  · exact h3 ▸ countActive_le_length g.enemyBullets
  · exact h4 ▸ countActive_le_length g.powerups
  · exact h5 ▸ countActive_le_length g.explosions
  · exact h6 ▸ countActive_le_length g.particles
  · exact ⟨by simpa [Game.spawnEnemy, spawnInto_length] using h1, h2, h3, h4, h5, h6⟩
  · exact ⟨h1, by simpa [Game.spawnPlayerBullet, spawnInto_length] using h2, h3, h4, h5, h6⟩
  · exact ⟨h1, h2, by simpa [Game.spawnEnemyBullet, spawnInto_length] using h3, h4, h5, h6⟩
  · exact ⟨h1, h2, h3, by simpa [Game.spawnPowerup, spawnInto_length] using h4, h5, h6⟩
  · exact ⟨h1, h2, h3, h4, h5, by simpa [Game.spawnParticle, spawnInto_length] using h6⟩
  · obtain ⟨p1, p2, p3, p4, p5, p6, -⟩ :=
      spawnParticles_fields { g with explosions := spawnInto g.explosions (Entity.init EXPLOSION pos ⟨0, 0⟩ size size 6 TFT_ORANGE now) } pos pvel now 8
    refine ⟨?_, ?_, ?_, ?_, ?_, ?_⟩
    · rw [show (g.spawnExplosion pos size now pvel).enemies = _ from p1]; exact h1
    · rw [show (g.spawnExplosion pos size now pvel).playerBullets = _ from p2]; exact h2
    · rw [show (g.spawnExplosion pos size now pvel).enemyBullets = _ from p3]; exact h3
    · rw [show (g.spawnExplosion pos size now pvel).powerups = _ from p4]; exact h4
    · rw [show (g.spawnExplosion pos size now pvel).explosions = _ from p5,
        spawnInto_length]; exact h5
    · rw [show (g.spawnExplosion pos size now pvel).particles.length = _ from p6]; exact h6

/-- Witness for C9 at the fresh well-sized game. -/
theorem C9_pool_capacity_witness :
    gEmpty.wellSized ∧
    ((countActive gEmpty.enemies ≤ MAX_ENEMIES ∧
      countActive gEmpty.playerBullets ≤ MAX_PLAYER_BULLETS ∧
      countActive gEmpty.enemyBullets ≤ MAX_ENEMY_BULLETS ∧
      countActive gEmpty.powerups ≤ MAX_POWERUPS ∧
      countActive gEmpty.explosions ≤ MAX_EXPLOSIONS ∧
      countActive gEmpty.particles ≤ MAX_PARTICLES) ∧
     (gEmpty.spawnEnemy ENEMY_BASIC ⟨100, -20⟩ ⟨0, 1⟩ 0).wellSized ∧
     (gEmpty.spawnPlayerBullet ⟨100, 100⟩ ⟨0, -8⟩ 0).wellSized ∧
     (gEmpty.spawnEnemyBullet ⟨100, 100⟩ ⟨0, 3⟩ 0).wellSized ∧
     (gEmpty.spawnPowerup ⟨100, 100⟩ POWERUP_WEAPON 0).wellSized ∧
     (gEmpty.spawnParticle ⟨100, 100⟩ ⟨0, 0⟩ 0).wellSized ∧
     (gEmpty.spawnExplosion ⟨100, 100⟩ 20 0 pvelZero).wellSized) :=
  ⟨by decide,
   C9_pool_capacity gEmpty (by decide) ENEMY_BASIC POWERUP_WEAPON
     ⟨100, -20⟩ ⟨0, 1⟩ 20 0 pvelZero⟩

/-- C2 counterexample: with the explosion pool completely full and the
particle pool completely free, `spawnExplosion` finds no explosion slot, yet
it is not a no-op: its particle loop still creates 8 particles. -/
theorem C2_full_explosion_counterexample :
    freeSlots gExpFull.explosions = 0 ∧
    countActive gExpFull.particles = 0 ∧
    countActive (gExpFull.spawnExplosion ⟨100, 100⟩ 20 0 pvelZero).particles = 8 := by
  exact ⟨by decide, by decide, by decide⟩

/-- C2 (amended): each single-pool spawn (enemy, player bullet, enemy bullet,
powerup, particle) is a complete no-op when its target pool has no inactive
slot; `spawnExplosion` against a full explosion pool leaves the explosion
pool unchanged but still issues its 8 particle-spawn requests (it behaves
exactly like the bare 8-particle loop). -/
theorem C2_full_pool_spawn (g : Game) (type ptype : EntityType)
    (pos vel : Vec2) (size : ℚ) (now : Nat) (pvel : Nat → Vec2) :
    ((∀ e ∈ g.enemies, e.active = true) → g.spawnEnemy type pos vel now = g) ∧
    ((∀ e ∈ g.playerBullets, e.active = true) → g.spawnPlayerBullet pos vel now = g) ∧
    ((∀ e ∈ g.enemyBullets, e.active = true) → g.spawnEnemyBullet pos vel now = g) ∧
    ((∀ e ∈ g.powerups, e.active = true) → g.spawnPowerup pos ptype now = g) ∧
    ((∀ e ∈ g.particles, e.active = true) → g.spawnParticle pos vel now = g) ∧
    ((∀ e ∈ g.explosions, e.active = true) →
      g.spawnExplosion pos size now pvel = g.spawnParticles pos pvel now 8) := by
  refine ⟨fun h => ?_, fun h => ?_, fun h => ?_, fun h => ?_, fun h => ?_, fun h => ?_⟩
  · show { g with enemies := spawnInto g.enemies _ } = g
    rw [spawnInto_full _ _ h]
  · show { g with playerBullets := spawnInto g.playerBullets _ } = g
    rw [spawnInto_full _ _ h]
  · show { g with enemyBullets := spawnInto g.enemyBullets _ } = g
    rw [spawnInto_full _ _ h]
  · show { g with powerups := spawnInto g.powerups _ } = g
    rw [spawnInto_full _ _ h]
  · show { g with particles := spawnInto g.particles _ } = g
    rw [spawnInto_full _ _ h]
  · show Game.spawnParticles { g with explosions := spawnInto g.explosions _ } pos pvel now 8 =
      g.spawnParticles pos pvel now 8
    rw [spawnInto_full _ _ h]

/-- Witness for C2 at the game with every pool full. -/
theorem C2_full_pool_spawn_witness :
    (∀ e ∈ gAllFull.enemies, e.active = true) ∧
    (∀ e ∈ gAllFull.explosions, e.active = true) ∧
    gAllFull.spawnEnemy ENEMY_BASIC ⟨100, -20⟩ ⟨0, 1⟩ 0 = gAllFull ∧
    gAllFull.spawnExplosion ⟨100, 100⟩ 20 0 pvelZero =
      gAllFull.spawnParticles ⟨100, 100⟩ pvelZero 0 8 :=
  ⟨by decide, by decide,
   (C2_full_pool_spawn gAllFull ENEMY_BASIC POWERUP_WEAPON ⟨100, -20⟩ ⟨0, 1⟩ 20 0
      pvelZero).1 (by decide),
   (C2_full_pool_spawn gAllFull ENEMY_BASIC POWERUP_WEAPON ⟨100, 100⟩ ⟨0, 1⟩ 20 0
      pvelZero).2.2.2.2.2 (by decide)⟩

end Shooter

namespace Shooter

/-- C1: in the per-2-second enemy-type spawn selection over a uniform draw in
[0,100), every value strictly greater than 70 selects `ENEMY_FAST`, every other
value selects `ENEMY_BASIC`, and the `ENEMY_TANK` branch is unreachable: the
selected type is never `ENEMY_TANK`. -/
theorem C1_tank_unreachable (roll : Nat) (h : roll < 100) :
    (70 < roll → selectEnemyType roll = ENEMY_FAST) ∧
    (roll ≤ 70 → selectEnemyType roll = ENEMY_BASIC) ∧
    selectEnemyType roll ≠ ENEMY_TANK := by
  unfold selectEnemyType
  refine ⟨fun hgt => by simp [hgt], fun hle => ?_, ?_⟩
  · have h70 : ¬ roll > 70 := by omega
    have h90 : ¬ roll > 90 := by omega
    simp [h70, h90]
  · by_cases h70 : roll > 70
    · simp [h70]
    · have h90 : ¬ roll > 90 := by omega
      simp [h70, h90]

/-- Witness for C1 at the concrete draw 80. -/
theorem C1_tank_unreachable_witness :
    (80 : Nat) < 100 ∧
    ((70 < 80 → selectEnemyType 80 = ENEMY_FAST) ∧
     (80 ≤ 70 → selectEnemyType 80 = ENEMY_BASIC) ∧
     selectEnemyType 80 ≠ ENEMY_TANK) :=
  ⟨by decide, C1_tank_unreachable 80 (by decide)⟩

/-- C4 counterexample: the unit boxes at (0,0) and (1,0) merely touch at the
edge x = 1; under the spec's stated convention they overlap, but
`Rect::intersects` returns `false`. -/
theorem C4_touching_counterexample :
    specTouchOverlap ⟨0, 0, 1, 1⟩ ⟨1, 0, 1, 1⟩ = true ∧
    Rect.intersects ⟨0, 0, 1, 1⟩ ⟨1, 0, 1, 1⟩ = false := by
  constructor <;> simp [specTouchOverlap, Rect.intersects]

/-- C4 (amended): `Rect::intersects` returns true iff the two boxes'
x-intervals and y-intervals both overlap *strictly*; boxes that merely touch
at an edge are NOT counted as overlapping. -/
theorem C4_strict_overlap (a r : Rect) :
    Rect.intersects a r = true ↔
      strictIntervalOverlap a.x (a.x + a.w) r.x (r.x + r.w) ∧
      strictIntervalOverlap a.y (a.y + a.h) r.y (r.y + r.h) := by
  simp only [Rect.intersects, Bool.and_eq_true, decide_eq_true_eq,
    gt_iff_lt, strictIntervalOverlap]
  tauto

/-- C10: the rectangle intersection test is commutative. -/
theorem C10_intersects_comm (a b : Rect) :
    Rect.intersects a b = Rect.intersects b a := by
  rcases a with ⟨ax, ay, aw, ah⟩
  rcases b with ⟨bx, by', bw, bh⟩
  simp only [Rect.intersects, gt_iff_lt]
  rcases lt_or_le ax (bx + bw) with h1 | h1 <;>
  rcases lt_or_le bx (ax + aw) with h2 | h2 <;>
  rcases lt_or_le ay (by' + bh) with h3 | h3 <;>
  rcases lt_or_le by' (ay + ah) with h4 | h4 <;>
  simp [h1, h2, h3, h4, not_lt_of_le, le_of_lt]

/-- C7: an active player bullet is moved by its velocity each tick and is
deactivated in exactly the first tick whose post-movement vertical position
is strictly below −10, and not before. -/
theorem C7_bullet_culling (b : Entity) (hb : b.active = true) :
    (updatePlayerBulletStep b).pos.y = b.pos.y + b.vel.y ∧
    ((updatePlayerBulletStep b).active = false ↔ b.pos.y + b.vel.y < -10) := by
  unfold updatePlayerBulletStep
  simp only [hb, Bool.not_true, Bool.false_eq_true, if_false]
  by_cases h : b.pos.y + b.vel.y < -10
  · simp [h, Entity.deactivate]
  · simp [h, hb]

/-- Witness for C7 on the spec's scenario: the bullet at y = 5 survives the
tick that moves it to −3 and is deactivated by the tick that moves it to −11. -/
theorem C7_bullet_culling_witness :
    bulletAt5.active = true ∧
    ((updatePlayerBulletStep bulletAt5).pos.y = bulletAt5.pos.y + bulletAt5.vel.y ∧
     ((updatePlayerBulletStep bulletAt5).active = false ↔
       bulletAt5.pos.y + bulletAt5.vel.y < -10)) ∧
    (updatePlayerBulletStep bulletAt5).pos.y = -3 ∧
    (updatePlayerBulletStep bulletAt5).active = true ∧
    (updatePlayerBulletStep (updatePlayerBulletStep bulletAt5)).pos.y = -11 ∧
    (updatePlayerBulletStep (updatePlayerBulletStep bulletAt5)).active = false :=
  ⟨by decide, C7_bullet_culling bulletAt5 (by decide),
   by norm_num [updatePlayerBulletStep, bulletAt5, Entity.init, Entity.deactivate],
   by norm_num [updatePlayerBulletStep, bulletAt5, Entity.init, Entity.deactivate],
   by norm_num [updatePlayerBulletStep, bulletAt5, Entity.init, Entity.deactivate],
   by norm_num [updatePlayerBulletStep, bulletAt5, Entity.init, Entity.deactivate]⟩

/- Index-access lemmas for pools. -/

/-- Reading back the slot just written. -/
theorem getD_set_self (l : List Entity) (i : Nat) (a : Entity)
    (h : i < l.length) : (l.set i a).getD i dEnt = a := by
  induction l generalizing i with
  | nil => simp at h
  | cons hd t ih =>
    cases i with
    | zero => simp [List.getD]
    | succ k => simpa [List.getD] using ih k (by simpa using h)

/-- Writing one slot leaves every other slot unchanged. -/
theorem getD_set_ne (l : List Entity) (i j : Nat) (a : Entity)
    (hij : i ≠ j) : (l.set i a).getD j dEnt = l.getD j dEnt := by
  induction l generalizing i j with
  | nil => simp
  | cons hd t ih =>
    cases i with
    | zero =>
      cases j with
      | zero => exact absurd rfl hij
      | succ m => simp [List.getD]
    | succ k =>
      cases j with
      | zero => simp [List.getD]
      | succ m => simpa [List.getD] using ih k m (fun hh => hij (by omega))

/- Characterization of the enemy scan `findHit`. -/

/-- A successful scan returns an in-range index whose enemy the bullet hits. -/
theorem findHit_some (es : List Entity) (b : Entity) (j : Nat)
    (h : findHit es b = some j) :
    j < es.length ∧ isHit b (es.getD j dEnt) = true := by
  induction es generalizing j with
  | nil => simp [findHit] at h
  | cons e t ih =>
    by_cases he : isHit b e
    · simp only [findHit, he, if_pos, Option.some.injEq] at h
      subst h
      simpa [List.getD] using he
    · simp only [findHit, he, if_neg, Bool.false_eq_true, if_false,
        Option.map_eq_some'] at h
      obtain ⟨m, hm, rfl⟩ := h
      obtain ⟨h1, h2⟩ := ih m hm
      exact ⟨by simpa using Nat.succ_lt_succ h1, by simpa [List.getD] using h2⟩

/-- The scan finds exactly the least hit index. -/
theorem findHit_of_first (es : List Entity) (b : Entity) (j : Nat)
    (hj : j < es.length) (hhit : isHit b (es.getD j dEnt) = true)
    (hmin : ∀ k, k < j → isHit b (es.getD k dEnt) = false) :
    findHit es b = some j := by
  induction es generalizing j with
  | nil => simp at hj
  | cons e t ih =>
    cases j with
    | zero =>
      have h0 : isHit b e = true := by simpa [List.getD] using hhit
      simp [findHit, h0]
    | succ m =>
      have h0 : isHit b e = false := by
        simpa [List.getD] using hmin 0 (Nat.succ_pos m)
      have hrec := ih m (by simpa using hj) (by simpa [List.getD] using hhit)
        (fun k hk => by simpa [List.getD] using hmin (k + 1) (by omega))
      simp [findHit, h0, hrec]

/- Field-preservation lemmas for the secondary spawns of the hit path. -/

/-- Lemma: `spawnPowerup` touches only the powerup pool. -/
theorem spawnPowerup_fields (g : Game) (pos : Vec2) (ptype : EntityType)
    (now : Nat) :
    (g.spawnPowerup pos ptype now).enemies = g.enemies ∧
    (g.spawnPowerup pos ptype now).explosions = g.explosions ∧
    (g.spawnPowerup pos ptype now).particles = g.particles ∧
    (g.spawnPowerup pos ptype now).score = g.score ∧
    (g.spawnPowerup pos ptype now).lives = g.lives ∧
    (g.spawnPowerup pos ptype now).player = g.player :=
  ⟨rfl, rfl, rfl, rfl, rfl, rfl⟩

/-- What `spawnExplosion` does to each field: the explosion pool gains the
new record through the allocation scan, the particle pool is transformed by
the 8-particle loop, and everything else is untouched. -/
theorem spawnExplosion_fields (g : Game) (pos : Vec2) (size : ℚ) (now : Nat)
    (pvel : Nat → Vec2) :
    (g.spawnExplosion pos size now pvel).enemies = g.enemies ∧
    (g.spawnExplosion pos size now pvel).playerBullets = g.playerBullets ∧
    (g.spawnExplosion pos size now pvel).enemyBullets = g.enemyBullets ∧
    (g.spawnExplosion pos size now pvel).powerups = g.powerups ∧
    (g.spawnExplosion pos size now pvel).explosions =
      spawnInto g.explosions (Entity.init EXPLOSION pos ⟨0, 0⟩ size size 6 TFT_ORANGE now) ∧
    (g.spawnExplosion pos size now pvel).score = g.score ∧
    (g.spawnExplosion pos size now pvel).lives = g.lives ∧
    (g.spawnExplosion pos size now pvel).player = g.player ∧
    (g.spawnExplosion pos size now pvel).playerWeaponLevel = g.playerWeaponLevel ∧
    (g.spawnExplosion pos size now pvel).state = g.state := by
  obtain ⟨h1, h2, h3, h4, h5, h6, h7, h8, h9, h10, h11⟩ :=
    spawnParticles_fields { g with explosions := spawnInto g.explosions (Entity.init EXPLOSION pos ⟨0, 0⟩ size size 6 TFT_ORANGE now) } pos pvel now 8
  exact ⟨h1, h2, h3, h4, h5, h7, h8, h9, h10, h11⟩

/- Counting lemmas for the allocation scan. -/

/-- Inserting into a pool with a free slot raises by exactly one the count of
any predicate the new entity satisfies, provided the predicate holds only for
active entities (so the overwritten free slot cannot satisfy it). -/
theorem countP_spawnInto (pool : List Entity) (ent : Entity) (q : Entity → Bool)
    (hq : q ent = true) (hact : ∀ x, q x = true → x.active = true)
    (hfree : 0 < freeSlots pool) :
    (spawnInto pool ent).countP q = pool.countP q + 1 := by
  induction pool with
  | nil => simp [freeSlots] at hfree
  | cons hd t ih =>
    by_cases hh : hd.active
    · have hfree' : 0 < freeSlots t := by
        simpa [freeSlots, List.countP_cons, hh] using hfree
      have hrw : spawnInto (hd :: t) ent = hd :: spawnInto t ent := by
        simp [spawnInto, hh]
      rw [hrw, List.countP_cons, List.countP_cons, ih hfree']
      omega
    · have hqhd : q hd = false := by
        cases hqd : q hd
        · rfl
        · exact absurd (hact hd hqd) (by simp [hh])
      have hrw : spawnInto (hd :: t) ent = ent :: t := by
        simp [spawnInto, hh]
      rw [hrw, List.countP_cons, List.countP_cons, hq, hqhd]
      simp

/-- Inserting an active entity into a pool with a free slot consumes exactly
one free slot. -/
theorem freeSlots_spawnInto (pool : List Entity) (ent : Entity)
    (hent : ent.active = true) (hfree : 0 < freeSlots pool) :
    freeSlots (spawnInto pool ent) = freeSlots pool - 1 := by
  induction pool with
  | nil => simp [freeSlots] at hfree
  | cons hd t ih =>
    by_cases hh : hd.active
    · have hfree' : 0 < freeSlots t := by
        simpa [freeSlots, List.countP_cons, hh] using hfree
      have hrw : spawnInto (hd :: t) ent = hd :: spawnInto t ent := by
        simp [spawnInto, hh]
      have ht := ih hfree'
      simp only [freeSlots] at ht hfree' ⊢
      rw [hrw, List.countP_cons, List.countP_cons, ht]
      simp only [hh, Bool.not_true]
      omega
    · have hrw : spawnInto (hd :: t) ent = ent :: t := by
        simp [spawnInto, hh]
      simp only [freeSlots] at *
      rw [hrw, List.countP_cons, List.countP_cons]
      simp [hent, hh]

/-- The 8-particle loop with `n` iterations and at least `n` free slots adds
exactly `n` entities satisfying `q` (for any predicate satisfied by each
freshly built particle and implying activity) and consumes `n` free slots. -/
theorem spawnParticles_countP (g : Game) (pos : Vec2) (pvel : Nat → Vec2)
    (now : Nat) (q : Entity → Bool)
    (hq : ∀ v : Vec2, q (Entity.init PARTICLE pos v 2 2 10 TFT_YELLOW now) = true)
    (hact : ∀ x, q x = true → x.active = true) :
    ∀ n, n ≤ freeSlots g.particles →
      (g.spawnParticles pos pvel now n).particles.countP q
          = g.particles.countP q + n ∧
      freeSlots (g.spawnParticles pos pvel now n).particles
          = freeSlots g.particles - n := by
  intro n
  induction n with
  | zero => intro _; exact ⟨by simp [Game.spawnParticles], by simp [Game.spawnParticles]⟩
  | succ k ih =>
    intro hn
    obtain ⟨hc, hf⟩ := ih (by omega)
    have hfree : 0 < freeSlots (g.spawnParticles pos pvel now k).particles := by
      omega
    have e1 : (g.spawnParticles pos pvel now (k + 1)).particles
        = spawnInto (g.spawnParticles pos pvel now k).particles
            (Entity.init PARTICLE pos (pvel k) 2 2 10 TFT_YELLOW now) := rfl
    constructor
    · rw [e1, countP_spawnInto _ _ q (hq (pvel k)) hact hfree, hc]
      omega
    · rw [e1, freeSlots_spawnInto _ _ rfl hfree, hf]
      omega

/-- What the hit path does to the enemy pool: slot `j` is overwritten with a
record whose health dropped by 10 (deactivated if that reached 0), the rest
of the pool is untouched. -/
theorem applyHit_state (g : Game) (j dr tr now : Nat) (pvel : Nat → Vec2) :
    ∃ e2 : Entity,
      (g.applyHit j dr tr now pvel).enemies = g.enemies.set j e2 ∧
      e2.health = (g.enemies.getD j dEnt).health - 10 ∧
      e2.pos = (g.enemies.getD j dEnt).pos ∧
      (e2.health ≤ 0 → e2.active = false) := by
  by_cases hk : ((g.enemies.getD j dEnt).health - 10 : ℤ) ≤ 0
  · refine ⟨({ g.enemies.getD j dEnt with
        health := (g.enemies.getD j dEnt).health - 10 } : Entity).deactivate,
      ?_, rfl, rfl, fun _ => rfl⟩
    show (Game.applyHit g j dr tr now pvel).enemies = _
    unfold Game.applyHit
    simp only [if_pos hk]
    by_cases hd : dr < 20
    · simp only [if_pos hd]
      rw [(spawnPowerup_fields _ _ _ _).1, (spawnExplosion_fields _ _ _ _ _).1]
      exact List.set_set _ _ _ _
    · simp only [if_neg hd]
      rw [(spawnExplosion_fields _ _ _ _ _).1]
      exact List.set_set _ _ _ _
  · refine ⟨({ g.enemies.getD j dEnt with
        health := (g.enemies.getD j dEnt).health - 10 } : Entity),
      ?_, rfl, rfl, fun hc => absurd hc hk⟩
    show (Game.applyHit g j dr tr now pvel).enemies = _
    unfold Game.applyHit
    simp only [if_neg hk]

/-- What the hit path does to the run counters and the secondary pools when
the hit is lethal: score rises by 100, and — given a free explosion slot and
8 free particle slots — the explosion pool and the particle pool each gain
exactly the spawned records (counted through any predicate `q` that holds
for the freshly built explosion and particles and implies activity). -/
theorem applyHit_kill_counts (g : Game) (j dr tr now : Nat) (pvel : Nat → Vec2)
    (q : Entity → Bool)
    (hcond : ((g.enemies.getD j dEnt).health - 10 : ℤ) ≤ 0)
    (hqe : q (Entity.init EXPLOSION (g.enemies.getD j dEnt).pos ⟨0, 0⟩
      (g.enemies.getD j dEnt).width (g.enemies.getD j dEnt).width 6 TFT_ORANGE now) = true)
    (hqp : ∀ v : Vec2, q (Entity.init PARTICLE (g.enemies.getD j dEnt).pos v
      2 2 10 TFT_YELLOW now) = true)
    (hact : ∀ x, q x = true → x.active = true)
    (hex : 0 < freeSlots g.explosions)
    (hpa : 8 ≤ freeSlots g.particles) :
    (g.applyHit j dr tr now pvel).score = g.score + 100 ∧
    (g.applyHit j dr tr now pvel).explosions.countP q = g.explosions.countP q + 1 ∧
    (g.applyHit j dr tr now pvel).particles.countP q = g.particles.countP q + 8 := by
  have hcond' : (({ g.enemies.getD j dEnt with
      health := (g.enemies.getD j dEnt).health - 10 } : Entity).health : ℤ) ≤ 0 := hcond
  unfold Game.applyHit
  simp only [if_pos hcond']
  obtain ⟨x1, x2, x3, x4, x5, x6, x7, x8, x9, x10⟩ :=
    spawnExplosion_fields { g with
        enemies := g.enemies.set j { g.enemies.getD j dEnt with
          health := (g.enemies.getD j dEnt).health - 10 },
        score := g.score + 100 }
      ({ g.enemies.getD j dEnt with
          health := (g.enemies.getD j dEnt).health - 10 } : Entity).pos
      ({ g.enemies.getD j dEnt with
          health := (g.enemies.getD j dEnt).health - 10 } : Entity).width now pvel
  have hpart : (Game.spawnExplosion { g with
        enemies := g.enemies.set j { g.enemies.getD j dEnt with
          health := (g.enemies.getD j dEnt).health - 10 },
        score := g.score + 100 }
      ({ g.enemies.getD j dEnt with
          health := (g.enemies.getD j dEnt).health - 10 } : Entity).pos
      ({ g.enemies.getD j dEnt with
          health := (g.enemies.getD j dEnt).health - 10 } : Entity).width now
      pvel).particles.countP q = g.particles.countP q + 8 := by
    exact (spawnParticles_countP _ _ pvel now q (fun v => hqp v) hact 8 hpa).1
  by_cases hd : dr < 20
  · simp only [if_pos hd]
    obtain ⟨-, p2, p3, p4, -, -⟩ := spawnPowerup_fields
      (Game.spawnExplosion { g with
          enemies := g.enemies.set j { g.enemies.getD j dEnt with
            health := (g.enemies.getD j dEnt).health - 10 },
          score := g.score + 100 }
        ({ g.enemies.getD j dEnt with
            health := (g.enemies.getD j dEnt).health - 10 } : Entity).pos
        ({ g.enemies.getD j dEnt with
            health := (g.enemies.getD j dEnt).health - 10 } : Entity).width now pvel)
      ({ g.enemies.getD j dEnt with
          health := (g.enemies.getD j dEnt).health - 10 } : Entity).pos
      (if tr = 0 then POWERUP_WEAPON else POWERUP_HEALTH) now
    refine ⟨?_, ?_, ?_⟩
    · show (_ : Game).score = g.score + 100
      rw [p4, x6]
    · show (_ : Game).explosions.countP q = _
      rw [p2, x5]
      exact countP_spawnInto _ _ q hqe hact hex
    · show (_ : Game).particles.countP q = _
      rw [p3, hpart]
  · simp only [if_neg hd]
    refine ⟨?_, ?_, ?_⟩
    · show (_ : Game).score = g.score + 100
      rw [x6]
    · show (_ : Game).explosions.countP q = _
      rw [x5]
      exact countP_spawnInto _ _ q hqe hact hex
    · show (_ : Game).particles.countP q = _
      rw [hpart]

/-- C5: for every active player bullet whose enemy scan has a hit — with `j`
the lowest-index active intersecting enemy — and in particular when two or
more active enemies intersect the bullet simultaneously, exactly the enemy
in slot `j` takes the 10 damage; every other slot of the enemy pool is
unchanged by that bullet's resolution (the bullet deactivates and its scan
stops). -/
theorem C5_lowest_index_takes_hit (g : Game) (b : Entity) (dr tr now : Nat)
    (pvel : Nat → Vec2) (j : Nat)
    (hb : b.active = true)
    (hj : j < g.enemies.length)
    (hhit : isHit b (g.enemies.getD j dEnt) = true)
    (hmin : ∀ k, k < j → isHit b (g.enemies.getD k dEnt) = false)
    (hmulti : ∃ k, k < g.enemies.length ∧ k ≠ j ∧
      isHit b (g.enemies.getD k dEnt) = true) :
    (g.resolveBullet b dr tr now pvel).1.active = false ∧
    ((g.resolveBullet b dr tr now pvel).2.enemies.getD j dEnt).health
        = (g.enemies.getD j dEnt).health - 10 ∧
    (∀ k, k ≠ j → (g.resolveBullet b dr tr now pvel).2.enemies.getD k dEnt
        = g.enemies.getD k dEnt) ∧
    (g.resolveBullet b dr tr now pvel).2.enemies.length = g.enemies.length := by
  have hfind : findHit g.enemies b = some j := findHit_of_first _ _ _ hj hhit hmin
  have hres : g.resolveBullet b dr tr now pvel
      = (b.deactivate, g.applyHit j dr tr now pvel) := by
    simp [Game.resolveBullet, hb, hfind]
  obtain ⟨e2, hset, hhp2, -, -⟩ := applyHit_state g j dr tr now pvel
  rw [hres]
  refine ⟨rfl, ?_, ?_, ?_⟩
  · show ((g.applyHit j dr tr now pvel).enemies.getD j dEnt).health = _
    rw [hset, getD_set_self _ _ _ hj, hhp2]
  · intro k hk
    show (g.applyHit j dr tr now pvel).enemies.getD k dEnt = _
    rw [hset, getD_set_ne _ _ _ _ (fun hh => hk hh.symm)]
  · show (g.applyHit j dr tr now pvel).enemies.length = _
    rw [hset, List.length_set]

/-- Witness for C5: a concrete bullet overlapping the enemies in slots 0 and
1 damages only slot 0. -/
theorem C5_lowest_index_takes_hit_witness :
    bulletHit.active = true ∧
    (0 : Nat) < gTwoEnemies.enemies.length ∧
    isHit bulletHit (gTwoEnemies.enemies.getD 0 dEnt) = true ∧
    isHit bulletHit (gTwoEnemies.enemies.getD 1 dEnt) = true ∧
    ((gTwoEnemies.resolveBullet bulletHit 99 0 0 pvelZero).1.active = false ∧
     ((gTwoEnemies.resolveBullet bulletHit 99 0 0 pvelZero).2.enemies.getD 0 dEnt).health
         = (gTwoEnemies.enemies.getD 0 dEnt).health - 10 ∧
     (∀ k, k ≠ 0 → (gTwoEnemies.resolveBullet bulletHit 99 0 0 pvelZero).2.enemies.getD k dEnt
         = gTwoEnemies.enemies.getD k dEnt) ∧
     (gTwoEnemies.resolveBullet bulletHit 99 0 0 pvelZero).2.enemies.length
         = gTwoEnemies.enemies.length) :=
  ⟨by decide, by decide,
   by norm_num [isHit, Entity.getRect, Rect.intersects, gTwoEnemies, gEmpty,
     enemyA, bulletHit, Entity.init, List.getD],
   by norm_num [isHit, Entity.getRect, Rect.intersects, gTwoEnemies, gEmpty,
     enemyB, bulletHit, Entity.init, List.getD],
   C5_lowest_index_takes_hit gTwoEnemies bulletHit 99 0 0 pvelZero 0
     (by decide) (by decide)
     (by norm_num [isHit, Entity.getRect, Rect.intersects, gTwoEnemies, gEmpty,
       enemyA, bulletHit, Entity.init, List.getD])
     (fun k hk => absurd hk (Nat.not_lt_zero k))
     ⟨1, by decide, by decide,
      by norm_num [isHit, Entity.getRect, Rect.intersects, gTwoEnemies, gEmpty,
        enemyB, bulletHit, Entity.init, List.getD]⟩⟩

/-- C6: when an active player bullet's scan hits the enemy in slot `j` whose
health is 10, that resolution deactivates the bullet, drops the enemy's
health to 0 and deactivates it, adds exactly 100 to the score, and — given a
free explosion slot and 8 free particle slots — spawns exactly one explosion
and exactly 8 particles, all positioned at the enemy's position. -/
theorem C6_lethal_bookkeeping (g : Game) (b : Entity) (dr tr now : Nat)
    (pvel : Nat → Vec2) (j : Nat)
    (hb : b.active = true)
    (hfind : findHit g.enemies b = some j)
    (hhp : (g.enemies.getD j dEnt).health = 10)
    (hex : 0 < freeSlots g.explosions)
    (hpa : 8 ≤ freeSlots g.particles) :
    (g.resolveBullet b dr tr now pvel).1.active = false ∧
    ((g.resolveBullet b dr tr now pvel).2.enemies.getD j dEnt).health = 0 ∧
    ((g.resolveBullet b dr tr now pvel).2.enemies.getD j dEnt).active = false ∧
    (g.resolveBullet b dr tr now pvel).2.score = g.score + 100 ∧
    countActive (g.resolveBullet b dr tr now pvel).2.explosions
        = countActive g.explosions + 1 ∧
    countActive (g.resolveBullet b dr tr now pvel).2.particles
        = countActive g.particles + 8 ∧
    (g.resolveBullet b dr tr now pvel).2.explosions.countP
        (fun x => x.active && decide (x.pos = (g.enemies.getD j dEnt).pos))
      = g.explosions.countP
          (fun x => x.active && decide (x.pos = (g.enemies.getD j dEnt).pos)) + 1 ∧
    (g.resolveBullet b dr tr now pvel).2.particles.countP
        (fun x => x.active && decide (x.pos = (g.enemies.getD j dEnt).pos))
      = g.particles.countP
          (fun x => x.active && decide (x.pos = (g.enemies.getD j dEnt).pos)) + 8 := by
  have hj : j < g.enemies.length := (findHit_some _ _ _ hfind).1
  have hres : g.resolveBullet b dr tr now pvel
      = (b.deactivate, g.applyHit j dr tr now pvel) := by
    simp [Game.resolveBullet, hb, hfind]
  have hcond : ((g.enemies.getD j dEnt).health - 10 : ℤ) ≤ 0 := by
    rw [hhp]; norm_num
  obtain ⟨e2, hset, hhp2, -, hde⟩ := applyHit_state g j dr tr now pvel
  have he2h : e2.health = 0 := by rw [hhp2, hhp]; norm_num
  obtain ⟨s1, c1, c2⟩ := applyHit_kill_counts g j dr tr now pvel
    (·.active) hcond rfl (fun _ => rfl) (fun _ h => h) hex hpa
  obtain ⟨-, d1, d2⟩ := applyHit_kill_counts g j dr tr now pvel
    (fun x => x.active && decide (x.pos = (g.enemies.getD j dEnt).pos)) hcond
    (by simp [Entity.init]) (fun v => by simp [Entity.init])
    (fun x h => by
      have hh := h
      simp only [Bool.and_eq_true] at hh
      exact hh.1) hex hpa
  rw [hres]
  exact ⟨rfl,
    by show ((g.applyHit j dr tr now pvel).enemies.getD j dEnt).health = 0
       rw [hset, getD_set_self _ _ _ hj, he2h],
    by show ((g.applyHit j dr tr now pvel).enemies.getD j dEnt).active = false
       rw [hset, getD_set_self _ _ _ hj]
       exact hde (by rw [he2h]),
    s1, c1, c2, d1, d2⟩

/-- Witness for C6: the concrete bullet kills the full-health enemy in slot 0
of `gOneEnemy`, scoring 100 and spawning one explosion and 8 particles at the
enemy's position. -/
theorem C6_lethal_bookkeeping_witness :
    bulletHit.active = true ∧
    findHit gOneEnemy.enemies bulletHit = some 0 ∧
    (gOneEnemy.enemies.getD 0 dEnt).health = 10 ∧
    (0 : Nat) < freeSlots gOneEnemy.explosions ∧
    (8 : Nat) ≤ freeSlots gOneEnemy.particles ∧
    ((gOneEnemy.resolveBullet bulletHit 99 0 0 pvelZero).1.active = false ∧
     ((gOneEnemy.resolveBullet bulletHit 99 0 0 pvelZero).2.enemies.getD 0 dEnt).health = 0 ∧
     ((gOneEnemy.resolveBullet bulletHit 99 0 0 pvelZero).2.enemies.getD 0 dEnt).active = false ∧
     (gOneEnemy.resolveBullet bulletHit 99 0 0 pvelZero).2.score = gOneEnemy.score + 100 ∧
     countActive (gOneEnemy.resolveBullet bulletHit 99 0 0 pvelZero).2.explosions
         = countActive gOneEnemy.explosions + 1 ∧
     countActive (gOneEnemy.resolveBullet bulletHit 99 0 0 pvelZero).2.particles
         = countActive gOneEnemy.particles + 8 ∧
     (gOneEnemy.resolveBullet bulletHit 99 0 0 pvelZero).2.explosions.countP
         (fun x => x.active && decide (x.pos = (gOneEnemy.enemies.getD 0 dEnt).pos))
       = gOneEnemy.explosions.countP
           (fun x => x.active && decide (x.pos = (gOneEnemy.enemies.getD 0 dEnt).pos)) + 1 ∧
     (gOneEnemy.resolveBullet bulletHit 99 0 0 pvelZero).2.particles.countP
         (fun x => x.active && decide (x.pos = (gOneEnemy.enemies.getD 0 dEnt).pos))
       = gOneEnemy.particles.countP
           (fun x => x.active && decide (x.pos = (gOneEnemy.enemies.getD 0 dEnt).pos)) + 8) :=
  ⟨by decide,
   by norm_num [findHit, isHit, Entity.getRect, Rect.intersects, gOneEnemy,
     gEmpty, enemyA, bulletHit, Entity.init, List.getD],
   by decide, by decide, by decide,
   C6_lethal_bookkeeping gOneEnemy bulletHit 99 0 0 pvelZero 0
     (by decide)
     (by norm_num [findHit, isHit, Entity.getRect, Rect.intersects, gOneEnemy,
       gEmpty, enemyA, bulletHit, Entity.init, List.getD])
     (by decide) (by decide) (by decide)⟩

/- Per-field corollaries of `spawnExplosion_fields`, convenient for simp. -/

theorem spawnExplosion_enemies (g : Game) (pos : Vec2) (size : ℚ) (now : Nat)
    (pvel : Nat → Vec2) :
    (g.spawnExplosion pos size now pvel).enemies = g.enemies :=
  (spawnExplosion_fields g pos size now pvel).1

theorem spawnExplosion_powerups (g : Game) (pos : Vec2) (size : ℚ) (now : Nat)
    (pvel : Nat → Vec2) :
    (g.spawnExplosion pos size now pvel).powerups = g.powerups :=
  (spawnExplosion_fields g pos size now pvel).2.2.2.1

theorem spawnExplosion_lives (g : Game) (pos : Vec2) (size : ℚ) (now : Nat)
    (pvel : Nat → Vec2) :
    (g.spawnExplosion pos size now pvel).lives = g.lives :=
  (spawnExplosion_fields g pos size now pvel).2.2.2.2.2.2.1

theorem spawnExplosion_player (g : Game) (pos : Vec2) (size : ℚ) (now : Nat)
    (pvel : Nat → Vec2) :
    (g.spawnExplosion pos size now pvel).player = g.player :=
  (spawnExplosion_fields g pos size now pvel).2.2.2.2.2.2.2.1

theorem spawnPowerup_lives (g : Game) (pos : Vec2) (ptype : EntityType)
    (now : Nat) : (g.spawnPowerup pos ptype now).lives = g.lives := rfl

/-- The hit path never touches the lives counter. -/
theorem applyHit_lives (g : Game) (j dr tr now : Nat) (pvel : Nat → Vec2) :
    (g.applyHit j dr tr now pvel).lives = g.lives := by
  unfold Game.applyHit
  by_cases hk : (({ g.enemies.getD j dEnt with
      health := (g.enemies.getD j dEnt).health - 10 } : Entity).health : ℤ) ≤ 0
  · simp only [if_pos hk]
    by_cases hd : dr < 20
    · simp only [if_pos hd, spawnPowerup_lives, spawnExplosion_lives]
    · simp only [if_neg hd, spawnExplosion_lives]
  · simp only [if_neg hk]

/-- Resolving one player bullet never touches the lives counter. -/
theorem resolveBullet_lives (g : Game) (b : Entity) (dr tr now : Nat)
    (pvel : Nat → Vec2) :
    (g.resolveBullet b dr tr now pvel).2.lives = g.lives := by
  unfold Game.resolveBullet
  by_cases hb : b.active
  · simp only [hb, Bool.not_true, Bool.false_eq_true, if_false]
    cases hf : findHit g.enemies b with
    | none => rfl
    | some j => simp only [applyHit_lives]
  · simp only [hb, Bool.not_false, if_true]

/-- Phase 1 never touches the lives counter. -/
theorem runBullets_lives (rolls : Nat → Nat × Nat) (now : Nat)
    (pvel : Nat → Vec2) :
    ∀ (bs : List Entity) (g : Game) (k : Nat),
      (Game.runBullets rolls now pvel g bs k).2.lives = g.lives := by
  intro bs
  induction bs with
  | nil => intro g k; rfl
  | cons b t ih =>
    intro g k
    show (Game.runBullets rolls now pvel
        (g.resolveBullet b (rolls k).1 (rolls k).2 now pvel).2 t (k + 1)).2.lives
      = g.lives
    rw [ih, resolveBullet_lives]

/-- Phase 2 can only decrease the lives counter. -/
theorem runEnemyBullets_lives (now : Nat) (pvel : Nat → Vec2) :
    ∀ (bs : List Entity) (g : Game),
      (Game.runEnemyBullets now pvel g bs).2.lives ≤ g.lives := by
  intro bs
  induction bs with
  | nil => intro g; exact le_refl _
  | cons b t ih =>
    intro g
    unfold Game.runEnemyBullets
    by_cases hc : (b.active && b.getRect.intersects g.player.getRect) = true
    · simp only [hc, if_pos]
      refine le_trans (ih _) ?_
      rw [spawnExplosion_lives]
      show g.lives - 1 ≤ g.lives
      omega
    · simp only [hc, if_false]
      exact ih g

/-- Phase 3 can only decrease the lives counter. -/
theorem runEnemiesVsPlayer_lives (now : Nat) (pvel : Nat → Vec2) :
    ∀ (es : List Entity) (g : Game),
      (Game.runEnemiesVsPlayer now pvel g es).2.lives ≤ g.lives := by
  intro es
  induction es with
  | nil => intro g; exact le_refl _
  | cons e t ih =>
    intro g
    unfold Game.runEnemiesVsPlayer
    by_cases hc : (e.active && e.getRect.intersects g.player.getRect) = true
    · simp only [hc, if_pos]
      refine le_trans (ih _) ?_
      rw [spawnExplosion_lives, spawnExplosion_lives]
      show g.lives - 1 ≤ g.lives
      omega
    · simp only [hc, if_false]
      exact ih g

/-- Phase 4 never pushes lives above `max lives 5`: the only write is the
health pickup, which clamps at 5. -/
theorem runPowerups_lives :
    ∀ (ps : List Entity) (g : Game),
      (Game.runPowerups g ps).2.lives ≤ max g.lives 5 := by
  intro ps
  induction ps with
  | nil => intro g; exact le_max_left _ _
  | cons p t ih =>
    intro g
    unfold Game.runPowerups
    by_cases hc : (p.active && p.getRect.intersects g.player.getRect) = true
    · simp only [hc, if_pos]
      refine le_trans (ih _) ?_
      by_cases hw : p.type = POWERUP_WEAPON
      · rw [if_pos hw]
      · by_cases hh : p.type = POWERUP_HEALTH
        · rw [if_neg hw, if_pos hh]
          show max (min (g.lives + 1) 5) 5 ≤ max g.lives 5
          omega
        · rw [if_neg hw, if_neg hh]
    · simp only [hc, if_false]
      exact ih g

/-- C3 (amended): the lives counter never exceeds 5 — a full collision
resolution (all four phases, any number of simultaneous hits and pickups)
keeps `lives ≤ 5`, because the phases only ever decrement lives except the
health pickup, which clamps at 5.  (The lower bound 0 of the claim fails:
see the counterexample.) -/
theorem C3_lives_never_above_five (g : Game) (rolls : Nat → Nat × Nat)
    (now : Nat) (pvel : Nat → Vec2) (h5 : g.lives ≤ 5) :
    (g.checkCollisions rolls now pvel).lives ≤ 5 := by
  unfold Game.checkCollisions
  have l1 : (g.bulletsVsEnemies rolls now pvel).lives = g.lives := by
    unfold Game.bulletsVsEnemies
    exact runBullets_lives rolls now pvel g.playerBullets g 0
  have l2 : ((g.bulletsVsEnemies rolls now pvel).enemyBulletsVsPlayer now
      pvel).lives ≤ (g.bulletsVsEnemies rolls now pvel).lives := by
    unfold Game.enemyBulletsVsPlayer
    exact runEnemyBullets_lives now pvel _ _
  have l3 : (((g.bulletsVsEnemies rolls now pvel).enemyBulletsVsPlayer now
      pvel).enemiesVsPlayer now pvel).lives
      ≤ ((g.bulletsVsEnemies rolls now pvel).enemyBulletsVsPlayer now
      pvel).lives := by
    unfold Game.enemiesVsPlayer
    exact runEnemiesVsPlayer_lives now pvel _ _
  have l4 : ((((g.bulletsVsEnemies rolls now pvel).enemyBulletsVsPlayer now
      pvel).enemiesVsPlayer now pvel).powerupsVsPlayer).lives
      ≤ max (((g.bulletsVsEnemies rolls now pvel).enemyBulletsVsPlayer now
      pvel).enemiesVsPlayer now pvel).lives 5 := by
    unfold Game.powerupsVsPlayer
    exact runPowerups_lives _ _
  omega

/-- Witness for C3's amended bound at the fresh game (3 lives ≤ 5). -/
theorem C3_lives_never_above_five_witness :
    gEmpty.lives ≤ 5 ∧
    (gEmpty.checkCollisions rollsNone 0 pvelZero).lives ≤ 5 :=
  ⟨by decide, C3_lives_never_above_five gEmpty rollsNone 0 pvelZero (by decide)⟩

/- Inactive-pool phase lemmas, used to run the C3 counterexample without
evaluating the whole state. -/

/-- Phase 1 skips a pool of inactive bullets entirely. -/
theorem runBullets_inactive (rolls : Nat → Nat × Nat) (now : Nat)
    (pvel : Nat → Vec2) :
    ∀ (bs : List Entity) (g : Game) (k : Nat),
      (∀ b ∈ bs, b.active = false) →
      Game.runBullets rolls now pvel g bs k = (bs, g) := by
  intro bs
  induction bs with
  | nil => intro g k _; rfl
  | cons b t ih =>
    intro g k h
    have hb : b.active = false := h b (List.mem_cons_self b t)
    have hres : g.resolveBullet b (rolls k).1 (rolls k).2 now pvel = (b, g) := by
      unfold Game.resolveBullet
      simp [hb]
    show (let r := g.resolveBullet b (rolls k).1 (rolls k).2 now pvel
          let rest := Game.runBullets rolls now pvel r.2 t (k + 1)
          (r.1 :: rest.1, rest.2)) = (b :: t, g)
    rw [hres]
    simp only []
    rw [ih g (k + 1) fun x hx => h x (List.mem_cons_of_mem b hx)]

/-- Phase 2 skips a pool of inactive bullets entirely. -/
theorem runEnemyBullets_inactive (now : Nat) (pvel : Nat → Vec2) :
    ∀ (bs : List Entity) (g : Game),
      (∀ b ∈ bs, b.active = false) →
      Game.runEnemyBullets now pvel g bs = (bs, g) := by
  intro bs
  induction bs with
  | nil => intro g _; rfl
  | cons b t ih =>
    intro g h
    have hb : b.active = false := h b (List.mem_cons_self b t)
    unfold Game.runEnemyBullets
    simp only [hb, Bool.false_and, Bool.false_eq_true, if_false]
    rw [ih g fun x hx => h x (List.mem_cons_of_mem b hx)]

/-- Phase 3 skips a pool of inactive enemies entirely. -/
theorem runEnemiesVsPlayer_inactive (now : Nat) (pvel : Nat → Vec2) :
    ∀ (es : List Entity) (g : Game),
      (∀ e ∈ es, e.active = false) →
      Game.runEnemiesVsPlayer now pvel g es = (es, g) := by
  intro es
  induction es with
  | nil => intro g _; rfl
  | cons e t ih =>
    intro g h
    have hb : e.active = false := h e (List.mem_cons_self e t)
    unfold Game.runEnemiesVsPlayer
    simp only [hb, Bool.false_and, Bool.false_eq_true, if_false]
    rw [ih g fun x hx => h x (List.mem_cons_of_mem e hx)]

/-- Phase 4 skips a pool of inactive powerups entirely. -/
theorem runPowerups_inactive :
    ∀ (ps : List Entity) (g : Game),
      (∀ p ∈ ps, p.active = false) →
      Game.runPowerups g ps = (ps, g) := by
  intro ps
  induction ps with
  | nil => intro g _; rfl
  | cons p t ih =>
    intro g h
    have hb : p.active = false := h p (List.mem_cons_self p t)
    unfold Game.runPowerups
    simp only [hb, Bool.false_and, Bool.false_eq_true, if_false]
    rw [ih g fun x hx => h x (List.mem_cons_of_mem p hx)]

/-- Every slot of a `dEnt`-filled pool is inactive. -/
theorem replicate_dEnt_inactive (n : Nat) :
    ∀ b ∈ List.replicate n dEnt, b.active = false := by
  intro b hb
  rw [List.eq_of_mem_replicate hb]
  rfl

/-- One hit step of phase 2: the bullet deactivates, a life is lost, an
explosion is spawned at the player, and the scan continues on the rest. -/
theorem runEnemyBullets_cons_hit (now : Nat) (pvel : Nat → Vec2) (g : Game)
    (b : Entity) (t : List Entity)
    (hc : (b.active && b.getRect.intersects g.player.getRect) = true) :
    Game.runEnemyBullets now pvel g (b :: t)
      = (b.deactivate ::
          (Game.runEnemyBullets now pvel
            (Game.spawnExplosion { g with lives := g.lives - 1 }
              g.player.pos g.player.width now pvel) t).1,
         (Game.runEnemyBullets now pvel
           (Game.spawnExplosion { g with lives := g.lives - 1 }
             g.player.pos g.player.width now pvel) t).2) := by
  simp only [Game.runEnemyBullets]
  simp only [hc, if_pos]

/-- C3 counterexample: on the last life, two enemy bullets overlapping the
player in one tick drive the lives counter to −1 — the claimed lower bound 0
does not hold. -/
theorem C3_negative_lives_counterexample :
    gC3.lives = 1 ∧
    (gC3.checkCollisions rollsNone 0 pvelZero).lives = -1 := by
  refine ⟨rfl, ?_⟩
  have hp1 : gC3.bulletsVsEnemies rollsNone 0 pvelZero = gC3 := by
    unfold Game.bulletsVsEnemies
    rw [runBullets_inactive rollsNone 0 pvelZero gC3.playerBullets gC3 0
      (replicate_dEnt_inactive 30)]
  have hcond : (ebHit.active && ebHit.getRect.intersects gC3.player.getRect)
      = true := by
    norm_num [ebHit, gC3, gEmpty, playerStart, Entity.init, Entity.getRect,
      Rect.intersects]
  set g1 : Game := Game.spawnExplosion { gC3 with lives := gC3.lives - 1 }
    gC3.player.pos gC3.player.width 0 pvelZero with hg1
  have hg1lives : g1.lives = 0 := by
    rw [hg1, spawnExplosion_lives]
    rfl
  have hg1player : g1.player = gC3.player := by
    rw [hg1, spawnExplosion_player]
  have hcond1 : (ebHit.active && ebHit.getRect.intersects g1.player.getRect)
      = true := by rw [hg1player]; exact hcond
  set g2 : Game := Game.spawnExplosion { g1 with lives := g1.lives - 1 }
    g1.player.pos g1.player.width 0 pvelZero with hg2
  have hg2lives : g2.lives = -1 := by
    rw [hg2, spawnExplosion_lives]
    show g1.lives - 1 = -1
    rw [hg1lives]
    rfl
  have hg2enemies : g2.enemies = gC3.enemies := by
    rw [hg2, spawnExplosion_enemies]
    show g1.enemies = gC3.enemies
    rw [hg1, spawnExplosion_enemies]
  have hg2powerups : g2.powerups = gC3.powerups := by
    rw [hg2, spawnExplosion_powerups]
    show g1.powerups = gC3.powerups
    rw [hg1, spawnExplosion_powerups]
  have hrun : (Game.runEnemyBullets 0 pvelZero gC3 gC3.enemyBullets).2 = g2 := by
    show (Game.runEnemyBullets 0 pvelZero gC3
      (ebHit :: ebHit :: List.replicate 38 dEnt)).2 = g2
    rw [runEnemyBullets_cons_hit 0 pvelZero gC3 ebHit _ hcond]
    show (Game.runEnemyBullets 0 pvelZero g1
      (ebHit :: List.replicate 38 dEnt)).2 = g2
    rw [runEnemyBullets_cons_hit 0 pvelZero g1 ebHit _ hcond1]
    show (Game.runEnemyBullets 0 pvelZero g2 (List.replicate 38 dEnt)).2 = g2
    rw [runEnemyBullets_inactive 0 pvelZero (List.replicate 38 dEnt) g2
      (replicate_dEnt_inactive 38)]
  have hl2 : (gC3.enemyBulletsVsPlayer 0 pvelZero).lives = -1 := by
    show (Game.runEnemyBullets 0 pvelZero gC3 gC3.enemyBullets).2.lives = -1
    rw [hrun, hg2lives]
  have hen2 : ∀ e ∈ (gC3.enemyBulletsVsPlayer 0 pvelZero).enemies,
      e.active = false := by
    have hval : (gC3.enemyBulletsVsPlayer 0 pvelZero).enemies = gC3.enemies := by
      show (Game.runEnemyBullets 0 pvelZero gC3 gC3.enemyBullets).2.enemies
        = gC3.enemies
      rw [hrun, hg2enemies]
    intro e he
    rw [hval] at he
    exact replicate_dEnt_inactive 20 e he
  have hpw2 : ∀ p ∈ (gC3.enemyBulletsVsPlayer 0 pvelZero).powerups,
      p.active = false := by
    have hval : (gC3.enemyBulletsVsPlayer 0 pvelZero).powerups = gC3.powerups := by
      show (Game.runEnemyBullets 0 pvelZero gC3 gC3.enemyBullets).2.powerups
        = gC3.powerups
      rw [hrun, hg2powerups]
    intro p hp
    rw [hval] at hp
    exact replicate_dEnt_inactive 5 p hp
  have hl3 : ((gC3.enemyBulletsVsPlayer 0 pvelZero).enemiesVsPlayer 0
      pvelZero).lives = -1 := by
    show (Game.runEnemiesVsPlayer 0 pvelZero (gC3.enemyBulletsVsPlayer 0 pvelZero)
      (gC3.enemyBulletsVsPlayer 0 pvelZero).enemies).2.lives = -1
    rw [runEnemiesVsPlayer_inactive 0 pvelZero _ _ hen2]
    exact hl2
  have hpw3 : ∀ p ∈ ((gC3.enemyBulletsVsPlayer 0 pvelZero).enemiesVsPlayer 0
      pvelZero).powerups, p.active = false := by
    have hval : ((gC3.enemyBulletsVsPlayer 0 pvelZero).enemiesVsPlayer 0
        pvelZero).powerups = (gC3.enemyBulletsVsPlayer 0 pvelZero).powerups := by
      show (Game.runEnemiesVsPlayer 0 pvelZero (gC3.enemyBulletsVsPlayer 0 pvelZero)
        (gC3.enemyBulletsVsPlayer 0 pvelZero).enemies).2.powerups = _
      rw [runEnemiesVsPlayer_inactive 0 pvelZero _ _ hen2]
    intro p hp
    rw [hval] at hp
    exact hpw2 p hp
  unfold Game.checkCollisions
  rw [hp1]
  show (Game.runPowerups
      ((gC3.enemyBulletsVsPlayer 0 pvelZero).enemiesVsPlayer 0 pvelZero)
      ((gC3.enemyBulletsVsPlayer 0 pvelZero).enemiesVsPlayer 0
        pvelZero).powerups).2.lives = -1
  rw [runPowerups_inactive _ _ hpw3]
  exact hl3

/-- C8: from any game-over state, a touch signal makes the dispatch restart:
the next state is PLAYING with score 0, lives 3, weapon level 1 and every
slot of every pool inactive, before any tick body runs. -/
theorem C8_gameover_restart (g : Game) (now : Nat) (h : g.state = GAME_OVER) :
    g.updateDispatch true now = some (g.startGame now) ∧
    (g.startGame now).state = PLAYING ∧
    (g.startGame now).score = 0 ∧
    (g.startGame now).lives = 3 ∧
    (g.startGame now).playerWeaponLevel = 1 ∧
    (∀ e ∈ (g.startGame now).enemies, e.active = false) ∧
    (∀ e ∈ (g.startGame now).playerBullets, e.active = false) ∧
    (∀ e ∈ (g.startGame now).enemyBullets, e.active = false) ∧
    (∀ e ∈ (g.startGame now).powerups, e.active = false) ∧
    (∀ e ∈ (g.startGame now).explosions, e.active = false) ∧
    (∀ e ∈ (g.startGame now).particles, e.active = false) := by
  refine ⟨by simp [Game.updateDispatch, h], rfl, rfl, rfl, rfl,
    ?_, ?_, ?_, ?_, ?_, ?_⟩
  all_goals
    intro e he
    simp only [Game.startGame, Game.init] at he
    obtain ⟨a, -, rfl⟩ := List.mem_map.mp he
    rfl

/-- Witness for C8 at a concrete game-over state full of live entities. -/
theorem C8_gameover_restart_witness :
    gOver.state = GAME_OVER ∧
    (gOver.updateDispatch true 0 = some (gOver.startGame 0) ∧
     (gOver.startGame 0).state = PLAYING ∧
     (gOver.startGame 0).score = 0 ∧
     (gOver.startGame 0).lives = 3 ∧
     (gOver.startGame 0).playerWeaponLevel = 1 ∧
     (∀ e ∈ (gOver.startGame 0).enemies, e.active = false) ∧
     (∀ e ∈ (gOver.startGame 0).playerBullets, e.active = false) ∧
     (∀ e ∈ (gOver.startGame 0).enemyBullets, e.active = false) ∧
     (∀ e ∈ (gOver.startGame 0).powerups, e.active = false) ∧
     (∀ e ∈ (gOver.startGame 0).explosions, e.active = false) ∧
     (∀ e ∈ (gOver.startGame 0).particles, e.active = false)) :=
  ⟨rfl, C8_gameover_restart gOver 0 rfl⟩

end Shooter
